import Mathlib

/-!
Verification development for the plink-ng text-line ingestion layer
(`src/2.0/plink2_getline.h`) and the phased worker pool
(`src/unnamed/part_000`, i.e. `plink2_thread.h`).

The shallow embedding below models decoded bytes as `List Char`, buffer
cursors as `Nat` indices into the decoded-byte buffer, and the `PglErr`
status enumeration as an inductive type.  Functions whose bodies appear in
the headers under `src/` (`TextRfileNextLine`, `TextRfileLineEnd`,
`TextRfileEof`, `TextRfileErrcode`, the `_WIN32` `THREAD_BLOCK_FINISH`) are
translated directly from those bodies.  Functions whose bodies live in
compilation units absent from `src/` (`TextRfileAdvance`, `TextRfileOpenEx`,
`TextRfileRewind`, `CleanupTextRfile`, `SetThreadCt`, `AdvPastDelim`) are
modelled from the specification and from the contract comments that the
headers themselves state; each such definition says so in its doc comment.
-/

/-- Status enumeration of the reader, following the `PglErr` codes the
headers use: `Success` = `kPglRetSuccess`, `Nomem` = `kPglRetNomem`,
`OpenFail` = `kPglRetOpenFail`, `ReadFail` = `kPglRetReadFail`,
`MalformedInput` = `kPglRetMalformedInput` (the spec's FormatError),
`LongLine` = the spec's LineTooLong code, `Eof` = `kPglRetEof`. -/
inductive PglErr where
  | Success
  | Nomem
  | OpenFail
  | ReadFail
  | MalformedInput
  | LongLine
  | Eof
deriving DecidableEq

/-- State of a `textRFILE` reader (`src/2.0/plink2_getline.h` lines
151-170), plus the decoded content of the underlying source, which in C
lives behind `ff`/`raw`: `src0` is the full decoded content of the file and
`src` is the not-yet-buffered remainder of it.  `buf` is the valid decoded
region of `dst` (length `dst_len`); `consume_iter` and `consume_stop` are
indices into `buf`. -/
structure TextRfile where
  src0 : List Char
  src : List Char
  buf : List Char
  consume_iter : Nat
  consume_stop : Nat
  enforced_max_line_blen : Nat
  reterr : PglErr
deriving DecidableEq

/-- Test for the newline delimiter. -/
def isNL (c : Char) : Bool := c == '\n'

/-- Modelled from the spec: `AdvPastDelim` lives in `plink2_string.h`, which
is not under `src/`; the header comment (lines 71-85) describes it as
returning a pointer just past the next occurrence of the delimiter.  Here it
returns the index just past the first occurrence of `delim` at or after
`pos`. -/
def AdvPastDelim (buf : List Char) (pos : Nat) (delim : Char) : Nat :=
  pos + (buf.drop pos).findIdx (fun c => c == delim) + 1

/-- Modelled from the spec: the body of `TextRfileAdvance` is not under
`src/` (only its declaration, line 198).  Behavior follows spec section 4.2:
when a failure or end-of-stream code is already stored it is returned again
with no further reading (spec: "once status becomes a failure or
end-of-stream, no further bytes are produced"); otherwise the unterminated
tail of the buffer is compacted to the front, decoded bytes are appended
until a newline is available, end-of-stream with unterminated trailing data
synthesizes a terminating newline, and a line longer than
`enforced_max_line_blen` is reported as the long-line error instead of
being buffered (spec: "a line longer than L yields LineTooLong ...; a line
of exactly L succeeds").  Failure paths leave the cursor indices untouched;
after a failure the buffer is never exposed again, so this is observably
faithful. -/
def TextRfileAdvance (st : TextRfile) : PglErr × TextRfile :=
  if st.reterr = PglErr.Success then
    if st.src.any isNL then
      if (st.buf.drop st.consume_iter).length + st.src.findIdx isNL >
          st.enforced_max_line_blen then
        (PglErr.LongLine, { st with reterr := PglErr.LongLine })
      else
        (PglErr.Success,
          { st with
              buf := st.buf.drop st.consume_iter ++ st.src.take (st.src.findIdx isNL + 1),
              consume_iter := 0,
              consume_stop :=
                (st.buf.drop st.consume_iter ++ st.src.take (st.src.findIdx isNL + 1)).length,
              src := st.src.drop (st.src.findIdx isNL + 1) })
    else
      if st.buf.drop st.consume_iter = [] ∧ st.src = [] then
        (PglErr.Eof, { st with reterr := PglErr.Eof })
      else
        if (st.buf.drop st.consume_iter).length + st.src.length >
            st.enforced_max_line_blen then
          (PglErr.LongLine, { st with reterr := PglErr.LongLine })
        else
          (PglErr.Success,
            { st with
                buf := st.buf.drop st.consume_iter ++ st.src ++ ['\n'],
                consume_iter := 0,
                consume_stop := (st.buf.drop st.consume_iter ++ st.src ++ ['\n']).length,
                src := [] })
  else (st.reterr, st)

/-- Translated from the inline body of `TextRfileNextLine`
(`src/2.0/plink2_getline.h` lines 200-211): if the cursor sits at
`consume_stop`, run `TextRfileAdvance` and propagate a nonzero code;
otherwise report the line start through `line_startp` (the middle
component; `none` when the C code leaves `*line_startp` unwritten) and move
the cursor past the next newline. -/
def TextRfileNextLine (st0 : TextRfile) : PglErr × Option Nat × TextRfile :=
  if st0.consume_iter = st0.consume_stop then
    match TextRfileAdvance st0 with
    | (PglErr.Success, st) =>
      (PglErr.Success, some st.consume_iter,
        { st with consume_iter := AdvPastDelim st.buf st.consume_iter '\n' })
    | (reterr, st) => (reterr, none, st)
  else
    (PglErr.Success, some st0.consume_iter,
      { st0 with consume_iter := AdvPastDelim st0.buf st0.consume_iter '\n' })

/-- Translated from `TextRfileLineEnd` (lines 213-215): returns the cursor,
which after a successful `TextRfileNextLine` points just past the returned
line's newline. -/
def TextRfileLineEnd (st : TextRfile) : Nat := st.consume_iter

/-- Translated from `TextRfileEof` (lines 223-225). -/
def TextRfileEof (st : TextRfile) : Bool := decide (st.reterr = PglErr.Eof)

/-- Translated from `TextRfileErrcode` (lines 231-236). -/
def TextRfileErrcode (st : TextRfile) : PglErr :=
  if st.reterr = PglErr.Eof then PglErr.Success else st.reterr

/-- Modelled from the spec: the body of `TextRfileRewind` is not under
`src/` (only its declaration, line 217).  Spec section 4.2: "re-opens the
same source from the beginning, discarding buffered state". -/
def TextRfileRewind (st : TextRfile) : TextRfile :=
  { st with src := st.src0, buf := [], consume_iter := 0, consume_stop := 0,
            reterr := PglErr.Success }

/-- `kDecompressChunkSize` (`src/2.0/plink2_getline.h` line 176). -/
def kDecompressChunkSize : Nat := 1048576

/-- The environment a `TextRfileOpenEx` call runs in: whether the path
opens, whether allocation succeeds, whether decoder initialization (format
detection / decompressor setup) succeeds, and the decoded content of the
file. -/
structure OpenEnv where
  file_exists : Bool
  alloc_ok : Bool
  decoder_init_ok : Bool
  content : List Char
deriving DecidableEq

/-- A freshly opened reader on the given decoded content. -/
def freshTextRfile (content : List Char) (enforced_max_line_blen : Nat) : TextRfile :=
  { src0 := content, src := content, buf := [], consume_iter := 0, consume_stop := 0,
    enforced_max_line_blen := enforced_max_line_blen, reterr := PglErr.Success }

/-- Modelled from the spec: the body of `TextRfileOpenEx` is not under
`src/`; only its declaration and contract comment (lines 182-190) are.  Per
that comment, `enforced_max_line_blen` "must be >= dst_capacity -
kDecompressChunkSize" and "isn't permitted to be less than 1 MiB"; this
precondition is rendered as rejection (`none`).  `dst_capacity` is the
caller-supplied buffer capacity, `0` in self-managed-buffer mode (the
subtraction is truncated at zero, so the second bound is vacuous then).
The failure codes follow the comment on line 182, "Can return nomem,
open-fail, or read-fail": a decoder that fails to initialize surfaces as
read-fail, never as a silently-uncompressed success. -/
def TextRfileOpenEx (env : OpenEnv) (enforced_max_line_blen : Nat) (dst_capacity : Nat) :
    Option (PglErr × Option TextRfile) :=
  if enforced_max_line_blen < kDecompressChunkSize ∨
      enforced_max_line_blen < dst_capacity - kDecompressChunkSize then
    none
  else if env.file_exists = false then some (PglErr.OpenFail, none)
  else if env.alloc_ok = false then some (PglErr.Nomem, none)
  else if env.decoder_init_ok = false then some (PglErr.ReadFail, none)
  else some (PglErr.Success, some (freshTextRfile env.content enforced_max_line_blen))

/-- Modelled from the documented contract of `CleanupTextRfile`
(`src/2.0/plink2_getline.h` lines 238-242): "Returns nonzero iff file-close
fails, and either reterrp == nullptr or *reterrp == kPglRetSuccess.  In the
latter case, *reterrp is set to kPglRetReadFail."  `close_fails` abstracts
whether the underlying `fclose` fails; the result is the returned `BoolErr`
paired with the final contents of `*reterrp`. -/
def CleanupTextRfile (close_fails : Bool) (reterrp : Option PglErr) :
    Bool × Option PglErr :=
  if close_fails then
    match reterrp with
    | none => (true, none)
    | some r => if r = PglErr.Success then (true, some PglErr.ReadFail) else (false, some r)
  else (false, reterrp)

/-- Index of the next newline at or after the cursor; `TextRfileNextLine`
leaves the cursor at `nextNL st + 1` on the no-refill path. -/
def nextNL (st : TextRfile) : Nat :=
  st.consume_iter + (st.buf.drop st.consume_iter).findIdx isNL

/-- Observable synchronization actions of the block-barrier primitive:
signaling the worker's block-done event (`SetEvent(cur_block_done_events[tidx])`)
and blocking on the worker's start-next event
(`WaitForSingleObject(start_next_events[tidx], INFINITE)`). -/
inductive BarrierEvent where
  | signalBlockDone (tidx : Nat)
  | waitStartNext (tidx : Nat)
deriving DecidableEq

/-- Translated from the `_WIN32` inline body of `THREAD_BLOCK_FINISH`
(`src/unnamed/part_000` lines 192-201).  `is_last_block` is a shared field
of the `ThreadGroupControlBlock` that the controller may write while the
worker is blocked, so the two reads the body performs are passed in as the
snapshots `entry_is_last_block` (read by the leading `if (cbp->is_last_block)`)
and `after_wait_is_last_block` (read by the final
`return (cbp->is_last_block == 2)`).  The result pairs the returned
`BoolErr` with the trace of synchronization actions performed. -/
def THREAD_BLOCK_FINISH (tidx : Nat) (entry_is_last_block : Nat)
    (after_wait_is_last_block : Nat) : Bool × List BarrierEvent :=
  if entry_is_last_block ≠ 0 then (true, [])
  else (decide (after_wait_is_last_block = 2),
        [BarrierEvent.signalBlockDone tidx, BarrierEvent.waitStartNext tidx])

/-- `kMaxThreads` (`src/unnamed/part_000` lines 58-66): 64 under `_WIN32`,
512 otherwise. -/
def kMaxThreads (is_win32 : Bool) : Nat := if is_win32 then 64 else 512

/-- The fields of `ThreadGroupControlBlock` that thread functions may read
(`src/unnamed/part_000` lines 76-95). -/
structure ThreadGroupControlBlock where
  thread_ct : Nat
  is_last_block : Nat
deriving DecidableEq

/-- The portions of `ThreadGroup` (`src/unnamed/part_000` lines 107-123)
relevant here. -/
structure ThreadGroup where
  cb : ThreadGroupControlBlock
  is_active : Bool
deriving DecidableEq

/-- Modelled from the spec: the body of `SetThreadCt` is not under `src/`
(only its declaration, line 133, with the comment "Also allocates,
returning 1 on failure").  Spec section 4.4: "`SetThreadCount(n)`: clamps
`n` to `[1, platformMax]`, allocates per-worker resources; fails with
NoMemory on allocation failure".  `alloc_ok` abstracts whether the
per-worker allocation succeeds; the returned `BoolErr` is `true` exactly on
allocation failure. -/
def SetThreadCt (is_win32 : Bool) (alloc_ok : Bool) (thread_ct : Nat)
    (tgp : ThreadGroup) : Bool × ThreadGroup :=
  if alloc_ok then
    (false,
      { tgp with cb :=
        { tgp.cb with thread_ct := min (max thread_ct 1) (kMaxThreads is_win32) } })
  else (true, tgp)

/-- A newline occurring in a list is found by `findIdx isNL`: the character
at the found index is a newline and no earlier index holds one. -/
theorem findIdx_isNL_spec (l : List Char) (h : '\n' ∈ l) :
    l[l.findIdx isNL]? = some '\n' ∧ ∀ j, j < l.findIdx isNL → l[j]? ≠ some '\n' := by
  induction l with
  | nil => cases h
  | cons a t ih =>
    by_cases ha : a = '\n'
    · subst ha
      rw [List.findIdx_cons]
      simp [isNL]
    · have hmem : '\n' ∈ t := by
        rcases List.mem_cons.mp h with h1 | h1
        · exact absurd h1.symm ha
        · exact h1
      have hna : isNL a = false := by
        simp [isNL]
        exact fun hc => ha hc
      rw [List.findIdx_cons, hna]
      simp only [cond_false]
      rcases ih hmem with ⟨ih1, ih2⟩
      refine ⟨by simpa using ih1, ?_⟩
      intro j hj
      cases j with
      | zero =>
        simp only [List.getElem?_cons_zero]
        intro hc
        exact ha (Option.some.injEq _ _ ▸ hc)
      | succ m =>
        rw [List.getElem?_cons_succ]
        exact ih2 m (by omega)

/-- `findIdx isNL` on a list whose first newline terminates the prefix
`line` returns `line.length`. -/
theorem findIdx_isNL_append (line rest : List Char) (h : '\n' ∉ line) :
    (line ++ '\n' :: rest).findIdx isNL = line.length := by
  induction line with
  | nil =>
    rw [List.nil_append, List.findIdx_cons]
    simp [isNL]
  | cons a t ih =>
    have ha : a ≠ '\n' := fun hc => h (hc ▸ List.mem_cons_self a t)
    have hna : isNL a = false := by
      simp [isNL]
      exact fun hc => ha hc
    rw [List.cons_append, List.findIdx_cons, hna]
    simp only [cond_false, List.length_cons]
    rw [ih (fun hm => h (List.mem_cons_of_mem a hm))]

/-- On every non-success path, `TextRfileAdvance` leaves the cursor pair and
the unread source untouched. -/
theorem advance_nonsuccess_frame (st : TextRfile) (e : PglErr) (st' : TextRfile)
    (hadv : TextRfileAdvance st = (e, st')) (hne : e ≠ PglErr.Success) :
    st'.consume_iter = st.consume_iter ∧ st'.consume_stop = st.consume_stop ∧
    st'.src = st.src := by
  unfold TextRfileAdvance at hadv
  split_ifs at hadv with h1 h2 h3 h4 h5
  · injection hadv with he hst
    subst hst
    exact ⟨rfl, rfl, rfl⟩
  · injection hadv with he hst
    exact absurd he.symm hne
  · injection hadv with he hst
    subst hst
    exact ⟨rfl, rfl, rfl⟩
  · injection hadv with he hst
    subst hst
    exact ⟨rfl, rfl, rfl⟩
  · injection hadv with he hst
    exact absurd he.symm hne
  · injection hadv with he hst
    subst hst
    exact ⟨rfl, rfl, rfl⟩

/-- When the cursor sits at `consume_stop` and `TextRfileAdvance` reports a
nonzero code, `TextRfileNextLine` returns that code, writes nothing through
`line_startp`, and performs no cursor motion of its own. -/
theorem nextline_propagates_fail (st : TextRfile) (e : PglErr) (st' : TextRfile)
    (hiter : st.consume_iter = st.consume_stop)
    (hadv : TextRfileAdvance st = (e, st')) (hne : e ≠ PglErr.Success) :
    TextRfileNextLine st = (e, none, st') := by
  unfold TextRfileNextLine
  rw [if_pos hiter, hadv]
  cases e with
  | Success => exact absurd rfl hne
  | Nomem => rfl
  | OpenFail => rfl
  | ReadFail => rfl
  | MalformedInput => rfl
  | LongLine => rfl
  | Eof => rfl

/-- C9: after the reader's status becomes end-of-stream, the error-code
accessor reports success, not a failure: `TextRfileErrcode` returns the
stored code unless that code is `Eof`, in which case it returns `Success`,
and `TextRfileEof` holds exactly when the stored code is `Eof`. -/
theorem errcode_eof_is_success (st : TextRfile) :
    (st.reterr = PglErr.Eof → TextRfileErrcode st = PglErr.Success) ∧
    (st.reterr ≠ PglErr.Eof → TextRfileErrcode st = st.reterr) ∧
    (TextRfileEof st = true ↔ st.reterr = PglErr.Eof) := by
  refine ⟨fun h => ?_, fun h => ?_, ?_⟩
  · simp [TextRfileErrcode, h]
  · simp [TextRfileErrcode, h]
  · simp [TextRfileEof]

/-- Witness for `errcode_eof_is_success` at concrete reader states. -/
theorem errcode_eof_is_success_witness :
    TextRfileErrcode { freshTextRfile [] 5 with reterr := PglErr.Eof } = PglErr.Success ∧
    TextRfileErrcode { freshTextRfile [] 5 with reterr := PglErr.ReadFail } =
      PglErr.ReadFail ∧
    TextRfileEof { freshTextRfile [] 5 with reterr := PglErr.Eof } = true := by
  refine ⟨?_, ?_, ?_⟩
  · exact (errcode_eof_is_success _).1 rfl
  · exact (errcode_eof_is_success _).2.1 (by decide)
  · exact (errcode_eof_is_success _).2.2.mpr rfl

/-- C3 counterexample: with an error already pending, a failing close is not
reported at all — `CleanupTextRfile` returns zero (per its contract comment,
lines 238-241), so the close-failure is not "additionally reported" as the
claim states; only the earlier code survives. -/
theorem cleanup_close_failure_unreported :
    CleanupTextRfile true (some PglErr.Nomem) = (false, some PglErr.Nomem) ∧
    ¬((CleanupTextRfile true (some PglErr.Nomem)).1 = true) := by
  decide

/-- C3 amended: `CleanupTextRfile` never masks an earlier pending error —
that code is always what the caller still observes — but the close-failure
itself is reported (nonzero return, `*reterrp` set to read-fail) only when
no error was pending or no error pointer was supplied; with an error
pending the failing close returns zero. -/
theorem cleanup_pending_error_preserved (cf : Bool) (ro : Option PglErr) :
    ((CleanupTextRfile cf ro).1 = true ↔
      cf = true ∧ (ro = none ∨ ro = some PglErr.Success)) ∧
    (∀ r, ro = some r → r ≠ PglErr.Success → (CleanupTextRfile cf ro).2 = some r) := by
  constructor
  · rcases ro with _ | r
    · cases cf <;> simp [CleanupTextRfile]
    · cases cf <;> cases r <;> simp [CleanupTextRfile]
  · intro r hro hr
    subst hro
    cases cf <;> cases r <;> simp_all [CleanupTextRfile]

/-- Witness for `cleanup_pending_error_preserved`: a pending read-failure
survives a failing close, and with no pending error the failing close is
reported. -/
theorem cleanup_pending_error_preserved_witness :
    (CleanupTextRfile true (some PglErr.ReadFail)).2 = some PglErr.ReadFail ∧
    (CleanupTextRfile true (some PglErr.Success)).1 = true := by
  constructor
  · exact (cleanup_pending_error_preserved true (some PglErr.ReadFail)).2
      PglErr.ReadFail rfl (by decide)
  · exact (cleanup_pending_error_preserved true (some PglErr.Success)).1.mpr
      ⟨rfl, Or.inr rfl⟩

/-- C7: `TextRfileOpenEx` enforces its precondition on the enforced maximum
line length — any call with `enforced_max_line_blen` below
`kDecompressChunkSize`, or below `dst_capacity - kDecompressChunkSize` in
caller-buffer mode, is rejected rather than accepted. -/
theorem open_rejects_small_max_line (env : OpenEnv) (maxlen cap : Nat)
    (h : maxlen < kDecompressChunkSize ∨ maxlen < cap - kDecompressChunkSize) :
    TextRfileOpenEx env maxlen cap = none := by
  unfold TextRfileOpenEx
  rw [if_pos h]

/-- Witness for `open_rejects_small_max_line` with a zero maximum. -/
theorem open_rejects_small_max_line_witness :
    TextRfileOpenEx ⟨true, true, true, []⟩ 0 0 = none :=
  open_rejects_small_max_line ⟨true, true, true, []⟩ 0 0 (Or.inl (by decide))

/-- C6 counterexample: a file whose decoder fails to initialize is reported
with the read-fail code — the header's contract (line 182: "Can return
nomem, open-fail, or read-fail") has no FormatError, so the claimed failure
set {OpenFailure, NoMemory, FormatError} is wrong. -/
theorem open_decoder_fail_readfail :
    TextRfileOpenEx ⟨true, true, false, []⟩ kDecompressChunkSize 0 =
      some (PglErr.ReadFail, none) ∧
    PglErr.ReadFail ≠ PglErr.OpenFail ∧ PglErr.ReadFail ≠ PglErr.Nomem ∧
    PglErr.ReadFail ≠ PglErr.MalformedInput := by
  refine ⟨by decide, by decide, by decide, by decide⟩

/-- C6 amended: an accepted `TextRfileOpenEx` call fails only with
open-fail, nomem, or read-fail (the set its header comment states); a
decoder-initialization failure is reported as read-fail, never silently
treated as an uncompressed open, and a success hands back the freshly
opened reader. -/
theorem open_error_surface (env : OpenEnv) (maxlen cap : Nat) (r : PglErr)
    (ost : Option TextRfile)
    (h : TextRfileOpenEx env maxlen cap = some (r, ost)) :
    (r = PglErr.Success ∨ r = PglErr.OpenFail ∨ r = PglErr.Nomem ∨
      r = PglErr.ReadFail) ∧
    (env.decoder_init_ok = false → r ≠ PglErr.Success) ∧
    (r = PglErr.Success → ost = some (freshTextRfile env.content maxlen)) := by
  unfold TextRfileOpenEx at h
  split_ifs at h with h1 h2 h3 h4
  · simp only [Option.some.injEq, Prod.mk.injEq] at h
    obtain ⟨hr, ho⟩ := h
    subst hr
    exact ⟨by decide, fun _ => by decide, fun hc => absurd hc (by decide)⟩
  · simp only [Option.some.injEq, Prod.mk.injEq] at h
    obtain ⟨hr, ho⟩ := h
    subst hr
    exact ⟨by decide, fun _ => by decide, fun hc => absurd hc (by decide)⟩
  · simp only [Option.some.injEq, Prod.mk.injEq] at h
    obtain ⟨hr, ho⟩ := h
    subst hr
    exact ⟨by decide, fun _ => by decide, fun hc => absurd hc (by decide)⟩
  · simp only [Option.some.injEq, Prod.mk.injEq] at h
    obtain ⟨hr, ho⟩ := h
    subst hr
    exact ⟨by decide, fun hd => absurd hd h4, fun _ => ho.symm⟩

/-- Witness for `open_error_surface` at a decoder-initialization failure. -/
theorem open_error_surface_witness :
    (PglErr.ReadFail = PglErr.Success ∨ PglErr.ReadFail = PglErr.OpenFail ∨
      PglErr.ReadFail = PglErr.Nomem ∨ PglErr.ReadFail = PglErr.ReadFail) ∧
    PglErr.ReadFail ≠ PglErr.Success := by
  have h := open_error_surface ⟨true, true, false, []⟩ kDecompressChunkSize 0
    PglErr.ReadFail none (by decide)
  exact ⟨h.1, h.2.1 rfl⟩

/-- C8: `SetThreadCt` clamps the requested count into `[1, kMaxThreads]`
before allocating (`kMaxThreads` being 64 on Windows and 512 otherwise), so
the pool's resulting thread count always lies in that range, and it fails —
returning the nonzero `BoolErr` — exactly on allocation failure. -/
theorem setThreadCt_clamps (is_win32 alloc_ok : Bool) (n : Nat) (tgp : ThreadGroup) :
    ((SetThreadCt is_win32 alloc_ok n tgp).1 = true ↔ alloc_ok = false) ∧
    (alloc_ok = true →
      1 ≤ ((SetThreadCt is_win32 alloc_ok n tgp).2).cb.thread_ct ∧
      ((SetThreadCt is_win32 alloc_ok n tgp).2).cb.thread_ct ≤ kMaxThreads is_win32) ∧
    kMaxThreads true = 64 ∧ kMaxThreads false = 512 := by
  refine ⟨?_, fun ha => ?_, rfl, rfl⟩
  · cases alloc_ok <;> simp [SetThreadCt]
  · subst ha
    simp only [SetThreadCt, if_true]
    cases is_win32 <;> simp [kMaxThreads]

/-- Witness for `setThreadCt_clamps`: a request for 100000 threads on a
non-Windows platform lands in `[1, 512]`. -/
theorem setThreadCt_clamps_witness :
    1 ≤ ((SetThreadCt false true 100000 ⟨⟨0, 0⟩, false⟩).2).cb.thread_ct ∧
    ((SetThreadCt false true 100000 ⟨⟨0, 0⟩, false⟩).2).cb.thread_ct ≤
      kMaxThreads false :=
  (setThreadCt_clamps false true 100000 ⟨⟨0, 0⟩, false⟩).2.1 rfl

/-- C10: when `is_last_block` is already nonzero at entry,
`THREAD_BLOCK_FINISH` returns true immediately with no block-done signal and
no wait, and the graceful value 1 and the immediate value 2 produce the same
result on this path. -/
theorem block_finish_early_return (tidx entry after : Nat) (h : entry ≠ 0) :
    THREAD_BLOCK_FINISH tidx entry after = (true, []) ∧
    THREAD_BLOCK_FINISH tidx 1 after = THREAD_BLOCK_FINISH tidx 2 after := by
  constructor
  · unfold THREAD_BLOCK_FINISH
    rw [if_pos h]
  · simp [THREAD_BLOCK_FINISH]

/-- Witness for `block_finish_early_return` with `is_last_block = 1`. -/
theorem block_finish_early_return_witness :
    THREAD_BLOCK_FINISH 0 1 0 = (true, []) ∧
    THREAD_BLOCK_FINISH 0 1 0 = THREAD_BLOCK_FINISH 0 2 0 :=
  block_finish_early_return 0 1 0 (by decide)

/-- C5 counterexample: invoked with `is_last_block` equal to 1 (the graceful
value, not the immediate value 2), the barrier primitive returns true while
performing no block-done signal and no wait — so its return value is not
"true exactly when `is_last_block == 2`", and it does not unconditionally
signal-then-wait. -/
theorem block_finish_graceful_returns_true :
    THREAD_BLOCK_FINISH 5 1 1 = (true, []) ∧ (1 : Nat) ≠ 2 := by
  decide

/-- C5 amended: when `is_last_block` is still zero at entry, the barrier
primitive signals the worker's block-done event, then waits on its
start-next event, and returns true exactly when the `is_last_block` value
observed after the wait is 2 (immediate stop) as opposed to 1 (graceful
last block); when `is_last_block` is already nonzero at entry it instead
returns true at once without any handshake. -/
theorem block_finish_spec (tidx entry after : Nat) :
    (entry = 0 →
      ((THREAD_BLOCK_FINISH tidx entry after).1 = true ↔ after = 2) ∧
      (THREAD_BLOCK_FINISH tidx entry after).2 =
        [BarrierEvent.signalBlockDone tidx, BarrierEvent.waitStartNext tidx]) ∧
    (entry ≠ 0 → THREAD_BLOCK_FINISH tidx entry after = (true, [])) := by
  constructor
  · intro h
    subst h
    constructor
    · simp [THREAD_BLOCK_FINISH]
    · simp [THREAD_BLOCK_FINISH]
  · intro h
    unfold THREAD_BLOCK_FINISH
    rw [if_pos h]

/-- Witness for `block_finish_spec`: with a zero entry value the handshake
happens and an after-wait value of 2 means stop; with entry value 2 there is
no handshake. -/
theorem block_finish_spec_witness :
    (THREAD_BLOCK_FINISH 3 0 2).1 = true ∧
    (THREAD_BLOCK_FINISH 3 0 2).2 =
      [BarrierEvent.signalBlockDone 3, BarrierEvent.waitStartNext 3] ∧
    THREAD_BLOCK_FINISH 3 2 0 = (true, []) := by
  refine ⟨?_, ?_, ?_⟩
  · exact ((block_finish_spec 3 0 2).1 rfl).1.mpr rfl
  · exact ((block_finish_spec 3 0 2).1 rfl).2
  · exact (block_finish_spec 3 2 0).2 (by decide)

/-- C4: once the stored status is a failure or end-of-stream — a state in
which all buffered complete lines have been consumed, so the cursor sits at
`consume_stop` — every `TextRfileNextLine` call returns that same terminal
code again and leaves the whole reader state, including the unread source,
untouched; only `TextRfileRewind` clears the code and makes the source
readable from the start again. -/
theorem terminal_code_sticky (st : TextRfile) (h1 : st.reterr ≠ PglErr.Success)
    (h2 : st.consume_iter = st.consume_stop) :
    TextRfileNextLine st = (st.reterr, none, st) ∧
    (TextRfileRewind st).reterr = PglErr.Success ∧
    (TextRfileRewind st).src = st.src0 := by
  refine ⟨?_, rfl, rfl⟩
  have ha : TextRfileAdvance st = (st.reterr, st) := by
    unfold TextRfileAdvance
    rw [if_neg h1]
  exact nextline_propagates_fail st st.reterr st h2 ha h1

/-- Witness for `terminal_code_sticky` at a concrete end-of-stream state. -/
theorem terminal_code_sticky_witness :
    TextRfileNextLine ⟨['x'], [], ['a', '\n'], 2, 2, 9, PglErr.Eof⟩ =
      (PglErr.Eof, none, ⟨['x'], [], ['a', '\n'], 2, 2, 9, PglErr.Eof⟩) ∧
    (TextRfileRewind ⟨['x'], [], ['a', '\n'], 2, 2, 9, PglErr.Eof⟩).reterr =
      PglErr.Success ∧
    (TextRfileRewind ⟨['x'], [], ['a', '\n'], 2, 2, 9, PglErr.Eof⟩).src = ['x'] :=
  terminal_code_sticky ⟨['x'], [], ['a', '\n'], 2, 2, 9, PglErr.Eof⟩ (by decide) rfl

/-- C1: whenever the cursor does not sit at `consume_stop` (and, per the
buffer invariant, a newline terminates the unconsumed region),
`TextRfileNextLine` reports the line starting at the current cursor
position through `line_startp`, that line extends to the next newline
(`nextNL st` is the first newline at or after the cursor), and the cursor
moves to just past that newline; whenever the cursor sits exactly at
`consume_stop`, `TextRfileNextLine` first triggers `TextRfileAdvance` and,
if that returns a non-success code, returns that code with the cursor
unmoved. -/
theorem nextline_returns_line (st : TextRfile) :
    (st.consume_iter ≠ st.consume_stop → '\n' ∈ st.buf.drop st.consume_iter →
      st.buf[nextNL st]? = some '\n' ∧
      (∀ k, st.consume_iter ≤ k → k < nextNL st → st.buf[k]? ≠ some '\n') ∧
      TextRfileNextLine st =
        (PglErr.Success, some st.consume_iter,
          { st with consume_iter := nextNL st + 1 })) ∧
    (st.consume_iter = st.consume_stop → ∀ e st', TextRfileAdvance st = (e, st') →
      e ≠ PglErr.Success →
      TextRfileNextLine st = (e, none, st') ∧ st'.consume_iter = st.consume_iter) := by
  constructor
  · intro hne hmem
    obtain ⟨hfound, hbefore⟩ := findIdx_isNL_spec (st.buf.drop st.consume_iter) hmem
    refine ⟨?_, ?_, ?_⟩
    · unfold nextNL
      rw [← List.getElem?_drop]
      exact hfound
    · intro k hk1 hk2
      have hj : k - st.consume_iter < (st.buf.drop st.consume_iter).findIdx isNL := by
        unfold nextNL at hk2
        omega
      have hb := hbefore (k - st.consume_iter) hj
      rw [List.getElem?_drop] at hb
      have hkk : st.consume_iter + (k - st.consume_iter) = k := by omega
      rwa [hkk] at hb
    · unfold TextRfileNextLine
      rw [if_neg hne]
      have hpast : AdvPastDelim st.buf st.consume_iter '\n' = nextNL st + 1 := rfl
      rw [hpast]
  · intro hsame e st' hadv hne2
    exact ⟨nextline_propagates_fail st e st' hsame hadv hne2,
           (advance_nonsuccess_frame st e st' hadv hne2).1⟩

/-- A reader state with two buffered complete lines, for the witness of
`nextline_returns_line`. -/
def c1StateA : TextRfile := ⟨[], [], ['a', '\n', 'b', '\n'], 0, 4, 100, PglErr.Success⟩

/-- A reader state with a pending read failure, for the witness of
`nextline_returns_line`. -/
def c1StateB : TextRfile := ⟨['z'], ['z'], [], 0, 0, 100, PglErr.ReadFail⟩

/-- Witness for `nextline_returns_line` on both paths. -/
theorem nextline_returns_line_witness :
    TextRfileNextLine c1StateA =
      (PglErr.Success, some 0, { c1StateA with consume_iter := 2 }) ∧
    c1StateA.buf[1]? = some '\n' ∧
    TextRfileNextLine c1StateB = (PglErr.ReadFail, none, c1StateB) := by
  refine ⟨?_, ?_, ?_⟩
  · exact ((nextline_returns_line c1StateA).1 (by decide) (by decide)).2.2
  · exact ((nextline_returns_line c1StateA).1 (by decide) (by decide)).1
  · exact ((nextline_returns_line c1StateB).2 rfl PglErr.ReadFail c1StateB rfl
      (by decide)).1

/-- C2: for a reader whose enforced maximum line length is `L` and whose
next unread content is a newline-terminated line, reading a line longer
than `L` yields the long-line error — not nomem, and no truncated line is
handed out (`line_startp` stays unwritten) — while a line of length exactly
`L` is returned successfully and in full, newline included, with the cursor
just past it. -/
theorem maxline_boundary (line rest : List Char) (L : Nat) (st : TextRfile)
    (hnl : '\n' ∉ line)
    (hsrc : st.src = line ++ '\n' :: rest)
    (hret : st.reterr = PglErr.Success)
    (hiter : st.consume_iter = st.consume_stop)
    (hpl : st.buf.drop st.consume_iter = [])
    (hmax : st.enforced_max_line_blen = L) :
    (line.length > L →
      TextRfileNextLine st =
        (PglErr.LongLine, none, { st with reterr := PglErr.LongLine })) ∧
    (line.length = L →
      TextRfileNextLine st =
        (PglErr.Success, some 0,
          { st with buf := line ++ ['\n'], consume_iter := line.length + 1,
                    consume_stop := line.length + 1, src := rest })) := by
  have hany : st.src.any isNL = true := by
    rw [hsrc]
    simp [isNL]
  have hk : st.src.findIdx isNL = line.length := by
    rw [hsrc]
    exact findIdx_isNL_append line rest hnl
  have hlen0 : (st.buf.drop st.consume_iter).length = 0 := by
    rw [hpl]
    rfl
  constructor
  · intro hgt
    have hcond : (st.buf.drop st.consume_iter).length + st.src.findIdx isNL >
        st.enforced_max_line_blen := by
      rw [hlen0, hk, hmax]
      omega
    have hadv : TextRfileAdvance st =
        (PglErr.LongLine, { st with reterr := PglErr.LongLine }) := by
      unfold TextRfileAdvance
      rw [if_pos hret, if_pos hany, if_pos hcond]
    exact nextline_propagates_fail st _ _ hiter hadv (by decide)
  · intro heq
    have hcond : ¬((st.buf.drop st.consume_iter).length + st.src.findIdx isNL >
        st.enforced_max_line_blen) := by
      rw [hlen0, hk, hmax]
      omega
    have htake : st.src.take (st.src.findIdx isNL + 1) = line ++ ['\n'] := by
      rw [hk, hsrc]
      simp [List.take_append_eq_append_take]
    have hdrop : st.src.drop (st.src.findIdx isNL + 1) = rest := by
      rw [hk, hsrc]
      simp [List.drop_append_eq_append_drop]
    have hadv : TextRfileAdvance st =
        (PglErr.Success,
          { st with buf := line ++ ['\n'], consume_iter := 0,
                    consume_stop := line.length + 1, src := rest }) := by
      unfold TextRfileAdvance
      rw [if_pos hret, if_pos hany, if_neg hcond, hpl, htake, hdrop]
      simp
    have hpast : AdvPastDelim (line ++ ['\n']) 0 '\n' = line.length + 1 := by
      have hfi : (line ++ '\n' :: []).findIdx isNL = line.length :=
        findIdx_isNL_append line [] hnl
      show 0 + (List.drop 0 (line ++ ['\n'])).findIdx isNL + 1 = line.length + 1
      rw [List.drop_zero, hfi]
      omega
    unfold TextRfileNextLine
    rw [if_pos hiter, hadv]
    simp [hpast]

/-- A fresh reader on the line "abc" with enforced maximum 2, for the
witness of `maxline_boundary`. -/
def c2StateA : TextRfile := freshTextRfile ['a', 'b', 'c', '\n'] 2

/-- A fresh reader on the line "abc" (followed by more content) with
enforced maximum 3, for the witness of `maxline_boundary`. -/
def c2StateB : TextRfile := freshTextRfile ['a', 'b', 'c', '\n', 'd'] 3

/-- Witness for `maxline_boundary`: a 3-character line against maximum 2
fails with the long-line code; against maximum 3 it is returned in full. -/
theorem maxline_boundary_witness :
    TextRfileNextLine c2StateA =
      (PglErr.LongLine, none, { c2StateA with reterr := PglErr.LongLine }) ∧
    TextRfileNextLine c2StateB =
      (PglErr.Success, some 0,
        { c2StateB with buf := ['a', 'b', 'c', '\n'], consume_iter := 4,
                        consume_stop := 4, src := ['d'] }) := by
  constructor
  · exact (maxline_boundary ['a', 'b', 'c'] [] 2 c2StateA (by decide) rfl rfl rfl rfl
      rfl).1 (by decide)
  · exact (maxline_boundary ['a', 'b', 'c'] ['d'] 3 c2StateB (by decide) rfl rfl rfl rfl
      rfl).2 rfl
